import Mathlib

/-!
Shallow embedding of the rhythmify auth service token core.

Source of the embedding:
- shared/jwt package (JWTManager: GenerateTokenPair, generateToken,
  ValidateToken, RefreshAccessToken) together with the validation behaviour
  of the golang-jwt v5 library it calls (keyfunc signing-method check,
  signature comparison, default claim validation of exp and nbf);
- services/auth-service/internal/middleware/jwt.go (JWTMiddleware,
  OptionalJWTMiddleware);
- services/auth-service/internal/service/auth.go (AuthService.Login,
  AuthService.LinkTelegram);
- services/auth-service/internal/models/user.go (User, UserResponse,
  ToResponse, CheckPassword).

Modelling conventions: time is an integer count of seconds (Go time.Time
at the one-second granularity the token claims use); HMAC is modelled as a
perfect MAC, so a signature value records the algorithm, the key and the
signed payload, and verification compares signature values for equality;
the compact JWT string is modelled by its parse result, either a
structurally well-formed token or a malformed blob; the bcrypt hasher and
the user store are external collaborators and enter as function-valued
parameters, exactly as the Go code consumes their interfaces.
-/

namespace Rhythmify

/-- Token kinds, from the shared/jwt constants AccessToken and RefreshToken. -/
inductive TokenType
  | access
  | refresh
deriving DecidableEq, Repr

/-- The jwt.RegisteredClaims fields that generateToken populates:
subject, issued-at, expires-at, not-before and issuer.  Times are unix
seconds as Int. -/
structure RegisteredClaims where
  subject : String
  issuedAt : Int
  expiresAt : Int
  notBefore : Int
  issuer : String
deriving DecidableEq, Repr

/-- The shared/jwt Claims structure: user id, email, username, token type,
plus the registered claims. -/
structure Claims where
  userID : Int
  email : String
  username : String
  type : TokenType
  registered : RegisteredClaims
deriving DecidableEq, Repr

/-- Declared signing algorithm of a token header.  HS256, HS384 and HS512
are the golang-jwt SigningMethodHMAC family; the others stand for the
non-HMAC methods an attacker may declare (asymmetric schemes and the
unsigned alg none). -/
inductive Alg
  | HS256
  | HS384
  | HS512
  | RS256
  | ES256
  | none
deriving DecidableEq, Repr

/-- Whether the declared method is an instance of jwt.SigningMethodHMAC,
which is what the keyfunc in ValidateToken type-asserts. -/
def Alg.isHMAC : Alg → Bool
  | .HS256 => true
  | .HS384 => true
  | .HS512 => true
  | _ => false

/-- Perfect-MAC model of an HMAC signature: the signature value determines
the algorithm, the key and the signed payload, and nothing else equals it.
This models collision-free HMAC; verification is equality of signatures. -/
structure Sig where
  alg : Alg
  key : String
  payload : Claims
deriving DecidableEq, Repr

/-- Computing the MAC over a claims payload with a given key, as done by
token.SignedString inside generateToken and recomputed by the library
during ParseWithClaims. -/
def hmacSign (alg : Alg) (key : String) (payload : Claims) : Sig :=
  { alg := alg, key := key, payload := payload }

/-- A structurally well-formed compact JWT after base64 decoding: the
declared header algorithm, the claims payload and the attached signature.
An attacker may assemble any combination of the three. -/
structure Token where
  alg : Alg
  claims : Claims
  sig : Sig
deriving DecidableEq, Repr

/-- A token string as handed to ValidateToken: either it parses into a
well-formed token or it is structurally malformed. -/
inductive TokenString
  | wellFormed (t : Token)
  | malformed (raw : String)
deriving DecidableEq, Repr

/-- The TokenPair returned by GenerateTokenPair and RefreshAccessToken. -/
structure TokenPair where
  accessToken : TokenString
  refreshToken : TokenString
  expiresIn : Int
deriving DecidableEq, Repr

/-- The JWTManager state: secret key and the two configured durations,
held in seconds. -/
structure JWTManager where
  secretKey : String
  accessTokenDuration : Int
  refreshTokenDuration : Int
deriving DecidableEq, Repr

/-- Failure cases of ValidateToken, following the distinct failure points
of the Go code and the golang-jwt v5 library it calls: structural parse
failure, keyfunc rejection of a non-HMAC method, signature mismatch, and
the two temporal checks of the default claims validator. -/
inductive TokenError
  | malformedToken
  | unexpectedSigningMethod (alg : Alg)
  | signatureInvalid
  | tokenExpired
  | tokenNotValidYet
deriving DecidableEq, Repr

/-- Signing a claims payload with HS256, as jwt.NewWithClaims followed by
SignedString does inside generateToken: the resulting compact string
carries the HS256 header, the claims and the MAC under the given key. -/
def sign (secretKey : String) (claims : Claims) : TokenString :=
  .wellFormed { alg := .HS256, claims := claims, sig := hmacSign .HS256 secretKey claims }

/-- The claims built by generateToken for the given user data, token type,
duration and issue instant: subject is the decimal user id, issued-at and
not-before are the issue instant, expires-at is the issue instant plus the
duration, issuer is the fixed string. -/
def buildClaims (userID : Int) (email username : String) (tokenType : TokenType)
    (duration : Int) (now : Int) : Claims :=
  { userID := userID
    email := email
    username := username
    type := tokenType
    registered :=
      { subject := toString userID
        issuedAt := now
        expiresAt := now + duration
        notBefore := now
        issuer := "rhythmify-auth" } }

/-- generateToken: build the claims and sign them with the manager secret. -/
def generateToken (j : JWTManager) (userID : Int) (email username : String)
    (tokenType : TokenType) (duration : Int) (now : Int) : TokenString :=
  sign j.secretKey (buildClaims userID email username tokenType duration now)

/-- GenerateTokenPair: an access token with the access duration, a refresh
token with the refresh duration, and expiresIn set to the access duration
in seconds. -/
def generateTokenPair (j : JWTManager) (userID : Int) (email username : String)
    (now : Int) : TokenPair :=
  { accessToken := generateToken j userID email username .access j.accessTokenDuration now
    refreshToken := generateToken j userID email username .refresh j.refreshTokenDuration now
    expiresIn := j.accessTokenDuration }

/-- ValidateToken at verification instant now: reject malformed strings;
the keyfunc rejects any declared method that is not SigningMethodHMAC;
the signature is recomputed under the manager secret with the declared
method and compared; then the default golang-jwt v5 validator requires
now before expires-at and not-before not after now (issued-at is not
verified by default in v5). -/
def validateToken (j : JWTManager) (now : Int) (ts : TokenString) :
    Except TokenError Claims :=
  match ts with
  | .malformed _ => .error .malformedToken
  | .wellFormed t =>
    if t.alg.isHMAC then
      if t.sig = hmacSign t.alg j.secretKey t.claims then
        if now < t.claims.registered.expiresAt then
          if t.claims.registered.notBefore ≤ now then
            .ok t.claims
          else
            .error .tokenNotValidYet
        else
          .error .tokenExpired
      else
        .error .signatureInvalid
    else
      .error (.unexpectedSigningMethod t.alg)

/-- Failure cases of RefreshAccessToken: a wrapped ValidateToken failure,
or a token that verified but is not of the refresh kind. -/
inductive RefreshError
  | invalidRefreshToken (e : TokenError)
  | notARefreshToken
deriving DecidableEq, Repr

/-- RefreshAccessToken: validate the incoming token, require the refresh
kind, then mint a brand-new pair from the user id, email and username
stored in the validated claims.  No account store is consulted. -/
def refreshAccessToken (j : JWTManager) (now : Int) (ts : TokenString) :
    Except RefreshError TokenPair :=
  match validateToken j now ts with
  | .error e => .error (.invalidRefreshToken e)
  | .ok claims =>
    if claims.type ≠ TokenType.refresh then
      .error .notARefreshToken
    else
      .ok (generateTokenPair j claims.userID claims.email claims.username now)

/-- Failure cases of the access-token validation step that the strict
gate runs after extraction: a wrapped ValidateToken failure, or a token
that verified but is not of the access kind (the wrong-token-type
rejection). -/
inductive AccessError
  | invalidToken (e : TokenError)
  | wrongTokenType
deriving DecidableEq, Repr

/-- The validation step used to authorize requests, as inlined in
JWTMiddleware after bearer extraction: ValidateToken followed by the
access-kind check. -/
def validateAccess (j : JWTManager) (now : Int) (ts : TokenString) :
    Except AccessError Claims :=
  match validateToken j now ts with
  | .error e => .error (.invalidToken e)
  | .ok claims =>
    if claims.type ≠ TokenType.access then
      .error .wrongTokenType
    else
      .ok claims

/-- The distinct unauthorized messages the strict gate can emit; every one
is sent through response.Unauthorized as a 401 with code UNAUTHORIZED. -/
inductive GateMessage
  | authorizationHeaderRequired
  | mustStartWithBearer
  | tokenRequired
  | invalidOrExpiredToken
  | invalidTokenType
deriving DecidableEq, Repr

/-- The identity context the gate attaches on success: the user id, email,
username and full claims stored into the request context. -/
structure IdentityContext where
  userID : Int
  email : String
  username : String
  claims : Claims
deriving DecidableEq, Repr

/-- Outcome of a gate stage: either the request is aborted with a 401
unauthorized response carrying the given message, or the pipeline
continues, with or without an identity context attached. -/
inductive GateOutcome
  | aborted (message : GateMessage)
  | continued (identity : Option IdentityContext)
deriving DecidableEq, Repr

/-- The strings.HasPrefix check of the Go gate against the literal
bearer scheme, computed structurally on the character list. -/
def hasBearerScheme (authHeader : String) : Bool :=
  List.isPrefixOf "Bearer ".data authHeader.data

/-- The strings.TrimPrefix step of the gate, applied only after the
scheme check succeeded: drop the seven characters of the scheme. -/
def trimBearerScheme (authHeader : String) : String :=
  authHeader.drop 7

/-- JWTMiddleware, the strict gate: missing header, non-bearer scheme,
empty token value, token validation failure and non-access kind each
abort with their unauthorized message; on success the identity context
is attached and the pipeline continues.  The header value is the string
returned by GetHeader, empty when the header is absent; decode stands
for the compact-JWT parsing ValidateToken performs on the extracted
token string. -/
def jwtMiddleware (j : JWTManager) (decode : String → TokenString) (now : Int)
    (authHeader : String) : GateOutcome :=
  if authHeader = "" then
    .aborted .authorizationHeaderRequired
  else if hasBearerScheme authHeader = false then
    .aborted .mustStartWithBearer
  else
    let tokenString := trimBearerScheme authHeader
    if tokenString = "" then
      .aborted .tokenRequired
    else
      match validateToken j now (decode tokenString) with
      | .error _ => .aborted .invalidOrExpiredToken
      | .ok claims =>
        if claims.type ≠ TokenType.access then
          .aborted .invalidTokenType
        else
          .continued (some
            { userID := claims.userID
              email := claims.email
              username := claims.username
              claims := claims })

/-- OptionalJWTMiddleware, the optional gate: the same extraction and
validation steps as the strict gate, but every failure continues the
pipeline without identity context instead of aborting. -/
def optionalJWTMiddleware (j : JWTManager) (decode : String → TokenString) (now : Int)
    (authHeader : String) : GateOutcome :=
  if authHeader = "" then
    .continued none
  else if hasBearerScheme authHeader = false then
    .continued none
  else
    let tokenString := trimBearerScheme authHeader
    if tokenString = "" then
      .continued none
    else
      match validateToken j now (decode tokenString) with
      | .error _ => .continued none
      | .ok claims =>
        if claims.type ≠ TokenType.access then
          .continued none
        else
          .continued (some
            { userID := claims.userID
              email := claims.email
              username := claims.username
              claims := claims })

/-- The models.User record: id, email, username, bcrypt password hash,
optional telegram id and timestamps (unix seconds). -/
structure User where
  id : Int
  email : String
  username : String
  password : String
  telegramID : Option Int
  createdAt : Int
  updatedAt : Int
deriving DecidableEq, Repr

/-- The models.UserResponse record produced by ToResponse: the user
without the password hash. -/
structure UserResponse where
  id : Int
  email : String
  username : String
  telegramID : Option Int
  createdAt : Int
  updatedAt : Int
deriving DecidableEq, Repr

/-- ToResponse: strip the password hash. -/
def User.toResponse (u : User) : UserResponse :=
  { id := u.id
    email := u.email
    username := u.username
    telegramID := u.telegramID
    createdAt := u.createdAt
    updatedAt := u.updatedAt }

/-- The slice of the UserRepository interface that Login and LinkTelegram
consume; each call either returns a value or fails with the Go error
message (not-found and infrastructure failures both arrive as errors). -/
structure UserRepository where
  getByEmail : String → Except String User
  getByTelegramID : Int → Except String User
  linkTelegram : Int → Int → Except String Unit

/-- The AuthService record: the user store and the JWT manager. -/
structure AuthService where
  userRepo : UserRepository
  jwtManager : JWTManager

/-- Result of AuthService.Login.  Both the failed-lookup branch and the
failed-password branch of the Go code return the one constant error
message, modelled by the single invalidCredentials value; success carries
the profile response and the freshly generated token pair. -/
inductive LoginResult
  | invalidCredentials
  | success (profile : UserResponse) (tokens : TokenPair)
deriving DecidableEq, Repr

/-- AuthService.Login: look the user up by email; any lookup error
becomes invalidCredentials; a failing password check (bcrypt comparison
of the stored hash against the supplied plaintext, passed in as the
external hasher collaborator) also becomes invalidCredentials; otherwise
a token pair is generated for the matched account and returned with the
profile.  Token generation in the model is total, matching the Go path
where GenerateTokenPair only fails on signing infrastructure errors. -/
def AuthService.login (bcryptVerify : String → String → Bool) (s : AuthService)
    (now : Int) (email password : String) : LoginResult :=
  match s.userRepo.getByEmail email with
  | .error _ => .invalidCredentials
  | .ok user =>
    if bcryptVerify user.password password then
      .success user.toResponse
        (generateTokenPair s.jwtManager user.id user.email user.username now)
    else
      .invalidCredentials

/-- Result of AuthService.LinkTelegram: success, the conflict error for a
telegram id already linked to another user, or a surfaced failure of the
persistence call with its message. -/
inductive LinkResult
  | ok
  | conflict
  | linkFailed (msg : String)
deriving DecidableEq, Repr

/-- AuthService.LinkTelegram: look up the telegram id; only when the
lookup succeeds AND the found user differs from the caller is the
conflict returned (the Go guard is err == nil AND existingUser.ID !=
userID); in every other case, including a failed lookup, the code falls
through to the persistence call, whose failure alone is surfaced. -/
def AuthService.linkTelegram (s : AuthService) (userID telegramID : Int) :
    LinkResult :=
  match s.userRepo.getByTelegramID telegramID with
  | .ok existingUser =>
    if existingUser.id ≠ userID then
      .conflict
    else
      match s.userRepo.linkTelegram userID telegramID with
      | .error m => .linkFailed m
      | .ok _ => .ok
  | .error _ =>
    match s.userRepo.linkTelegram userID telegramID with
    | .error m => .linkFailed m
    | .ok _ => .ok

instance {ε α : Type} [DecidableEq ε] [DecidableEq α] : DecidableEq (Except ε α)
  | .error a, .error b =>
    if h : a = b then .isTrue (by rw [h]) else .isFalse (by simp [h])
  | .error _, .ok _ => .isFalse (by simp)
  | .ok _, .error _ => .isFalse (by simp)
  | .ok a, .ok b =>
    if h : a = b then .isTrue (by rw [h]) else .isFalse (by simp [h])

/-- Concrete manager with a one-second access lifetime, used to evaluate
the claims on concrete inputs. -/
def mgrA : JWTManager :=
  { secretKey := "secret-key-A", accessTokenDuration := 1, refreshTokenDuration := 3600 }

/-- Concrete manager with a different secret and a 15-minute access
lifetime. -/
def mgrB : JWTManager :=
  { secretKey := "secret-key-B", accessTokenDuration := 900, refreshTokenDuration := 3600 }

/-- Access claims issued at instant 0 with a one-second lifetime. -/
def accessClaimsA : Claims :=
  buildClaims 1 "a@x.com" "alice" .access 1 0

/-- Refresh claims issued at instant 0 with a one-hour lifetime. -/
def refreshClaimsA : Claims :=
  buildClaims 1 "a@x.com" "alice" .refresh 3600 0

/-- A token declaring the unsigned alg none over the sample claims. -/
def noneAlgToken : Token :=
  { alg := .none, claims := accessClaimsA, sig := hmacSign .none mgrA.secretKey accessClaimsA }

/-- A token declaring the asymmetric RS256 method over the sample claims. -/
def rs256Token : Token :=
  { alg := .RS256, claims := accessClaimsA, sig := hmacSign .RS256 mgrA.secretKey accessClaimsA }

/-- A concrete registered user whose stored hash encodes the password
secret1 under the sample hasher below. -/
def userA : User :=
  { id := 1, email := "a@x.com", username := "alice", password := "hash:secret1"
    telegramID := none, createdAt := 0, updatedAt := 0 }

/-- A concrete user already linked to telegram id 42. -/
def userB : User :=
  { id := 2, email := "b@x.com", username := "bob", password := "hash:pw2"
    telegramID := some 42, createdAt := 0, updatedAt := 0 }

/-- Sample bcrypt collaborator: a stored hash verifies exactly the
plaintext it prefixes with the marker. -/
def bcryptVerifyA : String → String → Bool :=
  fun storedHash plaintext => storedHash = "hash:" ++ plaintext

/-- A store holding exactly userA, reachable by its email. -/
def repoA : UserRepository :=
  { getByEmail := fun e => if e = "a@x.com" then .ok userA else .error "user not found"
    getByTelegramID := fun _ => .error "user not found"
    linkTelegram := fun _ _ => .ok () }

/-- An auth service over repoA. -/
def svcA : AuthService :=
  { userRepo := repoA, jwtManager := mgrB }

/-- A store whose telegram-id lookup fails with an infrastructure error
while the link persistence call succeeds. -/
def repoFailingLookup : UserRepository :=
  { getByEmail := fun _ => .error "user not found"
    getByTelegramID := fun _ => .error "connection refused"
    linkTelegram := fun _ _ => .ok () }

/-- An auth service over repoFailingLookup. -/
def svcFailingLookup : AuthService :=
  { userRepo := repoFailingLookup, jwtManager := mgrB }

/-- A store where telegram id 42 is already linked to userB. -/
def repoLinked : UserRepository :=
  { getByEmail := fun _ => .error "user not found"
    getByTelegramID := fun t => if t = 42 then .ok userB else .error "user not found"
    linkTelegram := fun _ _ => .ok () }

/-- An auth service over repoLinked. -/
def svcLinked : AuthService :=
  { userRepo := repoLinked, jwtManager := mgrB }

/-- C1: for every claims value C signed and verified with the same secret,
verification at instant now succeeds with exactly C precisely when
not-before is at most now and now is strictly before expires-at; outside
that window verification fails with an error, the undifferentiated
invalid-token outcome.  The witness instantiates the 1-second-lifetime,
verified-2-seconds-later scenario. -/
theorem c1_sign_verify_round_trip_window (j : JWTManager) (C : Claims) (now : Int) :
    (validateToken j now (sign j.secretKey C) = .ok C ↔
      C.registered.notBefore ≤ now ∧ now < C.registered.expiresAt) ∧
    (¬ (C.registered.notBefore ≤ now ∧ now < C.registered.expiresAt) →
      ∃ e, validateToken j now (sign j.secretKey C) = .error e) := by
  have hval : validateToken j now (sign j.secretKey C) =
      if now < C.registered.expiresAt then
        if C.registered.notBefore ≤ now then .ok C else .error .tokenNotValidYet
      else .error .tokenExpired := by
    simp [validateToken, sign, hmacSign, Alg.isHMAC]
  constructor
  · rw [hval]
    by_cases h1 : now < C.registered.expiresAt <;>
      by_cases h2 : C.registered.notBefore ≤ now <;>
        simp [h1, h2]
  · intro h
    rw [hval]
    by_cases h1 : now < C.registered.expiresAt
    · by_cases h2 : C.registered.notBefore ≤ now
      · exact absurd ⟨h2, h1⟩ h
      · exact ⟨.tokenNotValidYet, by simp [h1, h2]⟩
    · exact ⟨.tokenExpired, by simp [h1]⟩

/-- C1 witness: the sample access claims verify at instant 0, and the
token issued with a 1-second lifetime is rejected when verified at
instant 2. -/
theorem c1_sign_verify_round_trip_window_witness :
    (validateToken mgrA 0 (sign mgrA.secretKey accessClaimsA) = .ok accessClaimsA) ∧
    (∃ e, validateToken mgrA 2 (sign mgrA.secretKey accessClaimsA) = .error e) :=
  ⟨(c1_sign_verify_round_trip_window mgrA accessClaimsA 0).1.2 (by decide),
   (c1_sign_verify_round_trip_window mgrA accessClaimsA 2).2 (by decide)⟩

/-- C2: every token that verifies to claims of the refresh kind, however
validly signed and unexpired, is rejected by the access-token validation
step with the wrong-token-type outcome rather than accepted; through the
strict gate the same request aborts with the invalid-token-type
unauthorized response instead of attaching the claims. -/
theorem c2_access_validation_rejects_refresh (j : JWTManager)
    (decode : String → TokenString) (now : Int) (ts : TokenString) (claims : Claims)
    (hok : validateToken j now ts = .ok claims) (href : claims.type = .refresh) :
    validateAccess j now ts = .error .wrongTokenType ∧
    ∀ h, h ≠ "" → hasBearerScheme h = true → trimBearerScheme h ≠ "" →
      decode (trimBearerScheme h) = ts →
      jwtMiddleware j decode now h = .aborted .invalidTokenType := by
  have htype : claims.type ≠ TokenType.access := by simp [href]
  constructor
  · simp [validateAccess, hok, htype]
  · intro h h0 h1 h2 h3
    simp [jwtMiddleware, h0, h1, h2, h3, hok, htype]

/-- C2 witness: a validly signed, unexpired refresh token is rejected by
the access validation step and by the strict gate. -/
theorem c2_access_validation_rejects_refresh_witness :
    validateAccess mgrA 0 (sign mgrA.secretKey refreshClaimsA) = .error .wrongTokenType ∧
    jwtMiddleware mgrA (fun _ => sign mgrA.secretKey refreshClaimsA) 0 "Bearer t" =
      .aborted .invalidTokenType := by
  have h := c2_access_validation_rejects_refresh mgrA
    (fun _ => sign mgrA.secretKey refreshClaimsA) 0
    (sign mgrA.secretKey refreshClaimsA) refreshClaimsA (by decide) (by decide)
  exact ⟨h.1, h.2 "Bearer t" (by decide) (by decide) (by decide) rfl⟩

/-- C3: RefreshAccessToken, applied to a token that verifies to claims,
rejects any non-refresh kind with the wrong-token-type outcome, and on
the refresh kind returns exactly the brand-new pair generated from the
user id, email and username stored in those claims; no account store
appears among its inputs, so current account state cannot influence the
result. -/
theorem c3_refresh_uses_claims_snapshot (j : JWTManager) (now : Int)
    (ts : TokenString) (claims : Claims)
    (hok : validateToken j now ts = .ok claims) :
    (claims.type ≠ TokenType.refresh →
      refreshAccessToken j now ts = .error .notARefreshToken) ∧
    (claims.type = TokenType.refresh →
      refreshAccessToken j now ts =
        .ok (generateTokenPair j claims.userID claims.email claims.username now)) := by
  constructor
  · intro htype
    simp [refreshAccessToken, hok, htype]
  · intro htype
    simp [refreshAccessToken, hok, htype]

/-- C3 witness: refreshing with a valid access token is rejected as not a
refresh token, and refreshing with a valid refresh token yields the pair
minted from the claims snapshot. -/
theorem c3_refresh_uses_claims_snapshot_witness :
    refreshAccessToken mgrA 0 (sign mgrA.secretKey accessClaimsA) =
      .error .notARefreshToken ∧
    refreshAccessToken mgrA 0 (sign mgrA.secretKey refreshClaimsA) =
      .ok (generateTokenPair mgrA refreshClaimsA.userID refreshClaimsA.email
        refreshClaimsA.username 0) :=
  ⟨(c3_refresh_uses_claims_snapshot mgrA 0 (sign mgrA.secretKey accessClaimsA)
      accessClaimsA (by decide)).1 (by decide),
   (c3_refresh_uses_claims_snapshot mgrA 0 (sign mgrA.secretKey refreshClaimsA)
      refreshClaimsA (by decide)).2 (by decide)⟩

/-- C4: a token signed under a secret K1 different from the verifying
manager secret is always rejected, with the signature-mismatch failure. -/
theorem c4_cross_secret_rejected (j : JWTManager) (K1 : String) (C : Claims)
    (now : Int) (hne : K1 ≠ j.secretKey) :
    validateToken j now (sign K1 C) = .error .signatureInvalid := by
  simp [validateToken, sign, hmacSign, Alg.isHMAC, Sig.mk.injEq, hne]

/-- C4 witness: a token signed under the first sample secret never
verifies under the second sample secret. -/
theorem c4_cross_secret_rejected_witness :
    validateToken mgrB 0 (sign "secret-key-A" accessClaimsA) = .error .signatureInvalid :=
  c4_cross_secret_rejected mgrB "secret-key-A" accessClaimsA 0 (by decide)

/-- C5: every well-formed token whose declared algorithm is outside the
HMAC family is rejected by the keyfunc with the unexpected-signing-method
failure, whatever its payload and signature. -/
theorem c5_non_hmac_alg_rejected (j : JWTManager) (now : Int) (t : Token)
    (halg : t.alg.isHMAC = false) :
    validateToken j now (.wellFormed t) = .error (.unexpectedSigningMethod t.alg) := by
  simp [validateToken, halg]

/-- C5 witness: tokens declaring alg none and RS256 over the sample
claims are rejected. -/
theorem c5_non_hmac_alg_rejected_witness :
    validateToken mgrA 0 (.wellFormed noneAlgToken) =
      .error (.unexpectedSigningMethod Alg.none) ∧
    validateToken mgrA 0 (.wellFormed rs256Token) =
      .error (.unexpectedSigningMethod Alg.RS256) :=
  ⟨c5_non_hmac_alg_rejected mgrA 0 noneAlgToken (by decide),
   c5_non_hmac_alg_rejected mgrA 0 rs256Token (by decide)⟩

/-- C6: whenever token verification fails — for any failure reason e,
be it structural malformation, a rejected signing method, a signature
mismatch, expiry or a not-yet-valid token — the caller-observable outcome
is one and the same constant unauthorized response; the reason e does not
occur in the outcome, so expired, tampered and malformed tokens are
indistinguishable to the caller, the undifferentiated invalid-token
failure. -/
theorem c6_validation_failures_undifferentiated (j : JWTManager)
    (decode : String → TokenString) (now : Int) (h : String)
    (h0 : h ≠ "") (h1 : hasBearerScheme h = true) (h2 : trimBearerScheme h ≠ "")
    (hfail : ∃ e, validateToken j now (decode (trimBearerScheme h)) = .error e) :
    jwtMiddleware j decode now h = .aborted .invalidOrExpiredToken := by
  obtain ⟨e, he⟩ := hfail
  simp [jwtMiddleware, h0, h1, h2, he]

/-- C6 witness: a structurally malformed token and a well-signed but
expired token produce the identical caller-observable outcome. -/
theorem c6_validation_failures_undifferentiated_witness :
    jwtMiddleware mgrA (fun s => .malformed s) 3 "Bearer bad" =
      .aborted .invalidOrExpiredToken ∧
    jwtMiddleware mgrA (fun _ => sign mgrA.secretKey accessClaimsA) 3 "Bearer t" =
      .aborted .invalidOrExpiredToken :=
  ⟨c6_validation_failures_undifferentiated mgrA (fun s => .malformed s) 3 "Bearer bad"
      (by decide) (by decide) (by decide) ⟨.malformedToken, rfl⟩,
   c6_validation_failures_undifferentiated mgrA (fun _ => sign mgrA.secretKey accessClaimsA)
      3 "Bearer t" (by decide) (by decide) (by decide) ⟨.tokenExpired, by decide⟩⟩

/-- C7: the pair issued by GenerateTokenPair consists of two well-formed
tokens carrying the identical user id, email and username given at
issuance, the first of access kind expiring one access duration after its
issue instant, the second of refresh kind expiring one refresh duration
after its issue instant, and the expiresIn field equals the access
duration in seconds. -/
theorem c7_issue_pair_fields (j : JWTManager) (userID : Int) (email username : String)
    (now : Int) :
    ∃ ta tr : Token,
      (generateTokenPair j userID email username now).accessToken = .wellFormed ta ∧
      (generateTokenPair j userID email username now).refreshToken = .wellFormed tr ∧
      ta.claims.userID = userID ∧ ta.claims.email = email ∧
      ta.claims.username = username ∧
      tr.claims.userID = userID ∧ tr.claims.email = email ∧
      tr.claims.username = username ∧
      ta.claims.type = .access ∧ tr.claims.type = .refresh ∧
      ta.claims.registered.expiresAt =
        ta.claims.registered.issuedAt + j.accessTokenDuration ∧
      tr.claims.registered.expiresAt =
        tr.claims.registered.issuedAt + j.refreshTokenDuration ∧
      (generateTokenPair j userID email username now).expiresIn = j.accessTokenDuration :=
  ⟨_, _, rfl, rfl, rfl, rfl, rfl, rfl, rfl, rfl, rfl, rfl, rfl, rfl, rfl⟩

/-- Helper: the optional gate is pointwise the strict gate with every
abort demoted to continuing without identity context; the success branch
is unchanged. -/
theorem optional_gate_demotes_strict (j : JWTManager) (decode : String → TokenString)
    (now : Int) (h : String) :
    optionalJWTMiddleware j decode now h =
      match jwtMiddleware j decode now h with
      | .aborted _ => .continued none
      | .continued x => .continued x := by
  unfold optionalJWTMiddleware jwtMiddleware
  by_cases h0 : h = ""
  · simp [h0]
  · by_cases h1 : hasBearerScheme h = false
    · simp [h0, h1]
    · by_cases h2 : trimBearerScheme h = ""
      · simp [h0, h1, h2]
      · cases hv : validateToken j now (decode (trimBearerScheme h)) with
        | error e => simp [h0, h1, h2, hv]
        | ok claims =>
          by_cases h3 : claims.type ≠ TokenType.access
          · simp [h0, h1, h2, hv, h3]
          · simp [h0, h1, h2, hv, h3]

/-- C8: with the authorization header consisting of the bare bearer
scheme and an empty token value, the strict gate aborts unauthorized with
the token-required message while the optional gate continues without
identity context; and in general, whenever the strict gate aborts for any
reason at any step, the optional gate continues the pipeline without
identity context. -/
theorem c8_strict_rejects_optional_continues (j : JWTManager)
    (decode : String → TokenString) (now : Int) :
    jwtMiddleware j decode now "Bearer " = .aborted .tokenRequired ∧
    optionalJWTMiddleware j decode now "Bearer " = .continued none ∧
    ∀ h m, jwtMiddleware j decode now h = .aborted m →
      optionalJWTMiddleware j decode now h = .continued none := by
  refine ⟨rfl, rfl, ?_⟩
  intro h m habort
  rw [optional_gate_demotes_strict, habort]

/-- C8 witness: on a header carrying an undecodable token the strict gate
aborts, and the optional gate on the same header continues without
identity context. -/
theorem c8_strict_rejects_optional_continues_witness :
    optionalJWTMiddleware mgrA (fun s => .malformed s) 0 "Bearer z" = .continued none :=
  (c8_strict_rejects_optional_continues mgrA (fun s => .malformed s) 0).2.2
    "Bearer z" .invalidOrExpiredToken rfl

/-- C9: Login returns the single invalidCredentials value both when the
lookup by email fails (no such account) and when the password check fails
on the found account, so the caller-observable result does not separate
the two causes; when lookup and password check both succeed, a token pair
is issued for the matched account together with its profile. -/
theorem c9_login_enumeration_resistant (bcryptVerify : String → String → Bool)
    (s : AuthService) (now : Int) (email password : String) :
    ((∃ e, s.userRepo.getByEmail email = .error e) →
      AuthService.login bcryptVerify s now email password = .invalidCredentials) ∧
    (∀ user, s.userRepo.getByEmail email = .ok user →
      bcryptVerify user.password password = false →
      AuthService.login bcryptVerify s now email password = .invalidCredentials) ∧
    (∀ user, s.userRepo.getByEmail email = .ok user →
      bcryptVerify user.password password = true →
      AuthService.login bcryptVerify s now email password =
        .success user.toResponse
          (generateTokenPair s.jwtManager user.id user.email user.username now)) := by
  refine ⟨?_, ?_, ?_⟩
  · rintro ⟨e, he⟩
    simp [AuthService.login, he]
  · intro user hu hpw
    simp [AuthService.login, hu, hpw]
  · intro user hu hpw
    simp [AuthService.login, hu, hpw]

/-- C9 witness: a nonexistent email and a wrong password on an existing
account yield the identical invalidCredentials result, and the correct
credentials yield the issued pair. -/
theorem c9_login_enumeration_resistant_witness :
    AuthService.login bcryptVerifyA svcA 0 "nobody@x.com" "secret1" = .invalidCredentials ∧
    AuthService.login bcryptVerifyA svcA 0 "a@x.com" "wrong" = .invalidCredentials ∧
    AuthService.login bcryptVerifyA svcA 0 "a@x.com" "secret1" =
      .success userA.toResponse
        (generateTokenPair svcA.jwtManager userA.id userA.email userA.username 0) :=
  ⟨(c9_login_enumeration_resistant bcryptVerifyA svcA 0 "nobody@x.com" "secret1").1
      ⟨"user not found", by decide⟩,
   (c9_login_enumeration_resistant bcryptVerifyA svcA 0 "a@x.com" "wrong").2.1
      userA (by decide) (by decide),
   (c9_login_enumeration_resistant bcryptVerifyA svcA 0 "a@x.com" "secret1").2.2
      userA (by decide) (by decide)⟩

/-- C10 counterexample: at a store whose lookup-by-telegram-id call fails
with an infrastructure error while the link persistence call succeeds,
LinkTelegram reports plain success — the failure of the lookup call is
swallowed, not surfaced to the caller, refuting the claim as stated. -/
theorem c10_lookup_failure_swallowed_counterexample :
    svcFailingLookup.userRepo.getByTelegramID 42 = .error "connection refused" ∧
    AuthService.linkTelegram svcFailingLookup 7 42 = .ok :=
  ⟨rfl, rfl⟩

/-- C10 amended: LinkTelegram returns the conflict exactly when the
lookup succeeds with a user of a different id; when the lookup succeeds
with the same user, and equally when the lookup fails for any reason, the
code proceeds to the link persistence call, surfacing only that call's
failure — a lookup failure itself is treated like absence and swallowed. -/
theorem c10_link_conflict_and_swallowed_lookup (s : AuthService)
    (userID telegramID : Int) :
    (∀ u, s.userRepo.getByTelegramID telegramID = .ok u → u.id ≠ userID →
      AuthService.linkTelegram s userID telegramID = .conflict) ∧
    (∀ u, s.userRepo.getByTelegramID telegramID = .ok u → u.id = userID →
      AuthService.linkTelegram s userID telegramID =
        match s.userRepo.linkTelegram userID telegramID with
        | .error m => .linkFailed m
        | .ok _ => .ok) ∧
    (∀ e, s.userRepo.getByTelegramID telegramID = .error e →
      AuthService.linkTelegram s userID telegramID =
        match s.userRepo.linkTelegram userID telegramID with
        | .error m => .linkFailed m
        | .ok _ => .ok) := by
  refine ⟨?_, ?_, ?_⟩
  · intro u hu hne
    simp [AuthService.linkTelegram, hu, hne]
  · intro u hu heq
    cases hl : s.userRepo.linkTelegram userID telegramID <;>
      simp [AuthService.linkTelegram, hu, heq, hl]
  · intro e he
    cases hl : s.userRepo.linkTelegram userID telegramID <;>
      simp [AuthService.linkTelegram, he, hl]

/-- C10 witness: linking telegram id 42 for user 7 conflicts when 42 is
already linked to user 2; re-linking for user 2 succeeds; and with the
failing-lookup store the link succeeds, the lookup failure swallowed. -/
theorem c10_link_conflict_and_swallowed_lookup_witness :
    AuthService.linkTelegram svcLinked 7 42 = .conflict ∧
    AuthService.linkTelegram svcLinked 2 42 = .ok ∧
    AuthService.linkTelegram svcFailingLookup 7 42 = .ok :=
  ⟨(c10_link_conflict_and_swallowed_lookup svcLinked 7 42).1 userB (by decide) (by decide),
   (c10_link_conflict_and_swallowed_lookup svcLinked 2 42).2.1 userB (by decide) (by decide),
   (c10_link_conflict_and_swallowed_lookup svcFailingLookup 7 42).2.2
      "connection refused" (by decide)⟩

end Rhythmify
